import Mathlib

/-!
Verification of the numeric simulation core of the fi-demo scroll-story app
(`src/scroll-story-app/src/App.tsx`): time alignment of load and solar
series, capacity clipping, monthly/annual aggregation, and the
zero-crossing interpolator for the reverse-flow display series.

Modelling conventions:
* JavaScript numbers are modelled as exact rationals (`ℚ`); timestamps
  (`Date.getTime()` values) as integers (milliseconds).
* `Date.prototype.getMonth` depends on the runtime locale, so it is
  modelled as an arbitrary function `getMonth : Int → Nat` passed as a
  parameter (the real one always lands in `[0, 11]`; theorems that need
  that add it as a hypothesis).
* JavaScript `undefined` (out-of-bounds array read) and `null` (gap
  marker) are both modelled by `Option.none` in the interpolator output.
* `new Date(ms)` truncates a fractional millisecond value toward zero;
  `jsTruncRat` reproduces that.
-/

/-- One entry of the parsed substation load series
(`LoadData` in App.tsx): timestamp in ms and net load in MW. -/
structure LoadPoint where
  time : Int
  netLoadMW : ℚ
deriving DecidableEq, Repr

/-- One entry of the parsed solar series (`SolarData` in App.tsx):
timestamp in ms and AC output per unit of DC nameplate. -/
structure SolarPoint where
  time : Int
  perUnitAC : ℚ
deriving DecidableEq, Repr

/-- One monthly statistics entry (`MonthlyData` in App.tsx). -/
structure MonthlyData where
  month : Nat
  productionMWh : ℚ
  curtailmentMWh : ℚ
deriving DecidableEq, Repr

/-- The time aligner embedded from App.tsx lines 161-163:
`loadData.find(l => Math.abs(l.timestamp.getTime() - s.timestamp.getTime()) < 3600000)`.
Returns the first load point in sequence order whose timestamp is strictly
within one hour of the solar point's timestamp. -/
def findMatchingLoad (loadData : List LoadPoint) (s : SolarPoint) : Option LoadPoint :=
  loadData.find? (fun l => |l.time - s.time| < 3600000)

/-- The per-sample contribution of one solar point to the accumulators of a
given month, embedded from the body of the `solarData.forEach` in
`calculateMonthlyStats` (App.tsx lines 157-172).  Returns the pair
(production increment, curtailment increment); a sample outside the month
or without a matching load point contributes `(0, 0)`. -/
def monthContrib (getMonth : Int → Nat) (loadData : List LoadPoint)
    (solarSize thermalLimit : ℚ) (month : Nat) (s : SolarPoint) : ℚ × ℚ :=
  if getMonth s.time = month then
    let outputRaw := s.perUnitAC * solarSize
    match findMatchingLoad loadData s with
    | some matchingLoad =>
        let capacity := matchingLoad.netLoadMW - thermalLimit
        let outputFI := min outputRaw capacity
        (outputFI, outputRaw - outputFI)
    | none => (0, 0)
  else (0, 0)

/-- `calculateMonthlyStats` embedded from App.tsx lines 150-182: for each
month index `0..11`, accumulate production and curtailment over all solar
samples of that month that have a matching load point. -/
def calculateMonthlyStats (getMonth : Int → Nat) (loadData : List LoadPoint)
    (solarData : List SolarPoint) (solarSize thermalLimit : ℚ) : List MonthlyData :=
  (List.range 12).map (fun month =>
    let acc := solarData.foldl
      (fun acc s =>
        (acc.1 + (monthContrib getMonth loadData solarSize thermalLimit month s).1,
         acc.2 + (monthContrib getMonth loadData solarSize thermalLimit month s).2))
      ((0 : ℚ), (0 : ℚ))
    { month := month, productionMWh := acc.1, curtailmentMWh := acc.2 })

/-- `calculateAnnualCurtailmentPct` embedded from App.tsx lines 185-192.
Note the guard in the source is `totalCurtailment > 0`, not a test on the
denominator.  (In the rational model `q / 0 = 0`; the only input region
where this diverges from JavaScript is `totalCurtailment > 0` with
`totalProduction + totalCurtailment = 0`, where JavaScript yields
`Infinity`; theorems below avoid asserting anything there.) -/
def calculateAnnualCurtailmentPct (monthlyData : List MonthlyData) : ℚ :=
  let totalProduction := monthlyData.foldl (fun sum m => sum + m.productionMWh) 0
  let totalCurtailment := monthlyData.foldl (fun sum m => sum + m.curtailmentMWh) 0
  if totalCurtailment > 0 then
    100 * totalCurtailment / (totalProduction + totalCurtailment)
  else 0

/-- The spec's annual-curtailment formula, written from the spec's words
(`100 × ΣcurtailmentMWh / (ΣproductionMWh + ΣcurtailmentMWh)`), used to
compare the source's guarded definition against the claimed one. -/
def specCurtailmentFormula (monthlyData : List MonthlyData) : ℚ :=
  100 * (monthlyData.map (·.curtailmentMWh)).sum /
    ((monthlyData.map (·.productionMWh)).sum + (monthlyData.map (·.curtailmentMWh)).sum)

/-- Truncation toward zero of a rational, as `new Date(ms)` clips a
fractional millisecond argument. -/
def jsTruncRat (q : ℚ) : Int := q.num.tdiv q.den

/-- The y-value emitted for an original point in `buildReverseFlowSeries`:
`y0 <= 0 ? y0 : null`, where an out-of-bounds read (`undefined`) compares
false with `<= 0` and therefore also yields `null` (`none`). -/
def reverseFlowY (y : Option ℚ) : Option ℚ :=
  match y with
  | some v => if v ≤ 0 then some v else none
  | none => none

/-- One iteration of the loop of `buildReverseFlowSeries` (App.tsx lines
117-139) at index `i`: the original point, plus the interpolated zero
crossing when the consecutive pair straddles zero.  Out-of-bounds reads are
`none` (JavaScript `undefined`), in which case every numeric comparison in
the crossing test is false and no crossing is emitted. -/
def reverseFlowStep (x : List Int) (y : List ℚ) (i : Nat) :
    List (Option Int) × List (Option ℚ) :=
  let x0 := x.get? i
  let y0 := y.get? i
  let point : List (Option Int) × List (Option ℚ) := ([x0], [reverseFlowY y0])
  match x0, x.get? (i + 1), y0, y.get? (i + 1) with
  | some t0, some t1, some a, some b =>
      if ((a ≤ 0 ∧ 0 < b) ∨ (0 < a ∧ b ≤ 0)) ∧ b ≠ a then
        let frac := -a / (b - a)
        let tCross := jsTruncRat ((t0 : ℚ) + ((t1 : ℚ) - (t0 : ℚ)) * frac)
        (point.1 ++ [some tCross], point.2 ++ [some 0])
      else point
  | _, _, _, _ => point

/-- `buildReverseFlowSeries` embedded from App.tsx lines 110-147: the
zero-crossing interpolator.  The loop runs `i = 0 .. x.length - 2`, then
the final original point is pushed unconditionally — for empty input this
is the out-of-bounds pair `(undefined, null)`, i.e. `(none, none)`. -/
def buildReverseFlowSeries (x : List Int) (y : List ℚ) :
    List (Option Int) × List (Option ℚ) :=
  let main := (List.range (x.length - 1)).foldl
    (fun acc i =>
      let step := reverseFlowStep x y i
      (acc.1 ++ step.1, acc.2 ++ step.2))
    ([], [])
  let lastIdx := x.length - 1
  (main.1 ++ [x.get? lastIdx], main.2 ++ [reverseFlowY (y.get? lastIdx)])

/-- The single-pass annual aggregation embedded from `generatePlot`
(App.tsx lines 766-784): one scan over all solar samples, accumulating
firm output and curtailed output with the same aligner and clipper as the
monthly version.  Returns `(totalMWh, curtailedMWh)` before the final
GWh display conversion. -/
def annualSinglePass (loadData : List LoadPoint) (solarData : List SolarPoint)
    (solarSize thermalLimit : ℚ) : ℚ × ℚ :=
  solarData.foldl
    (fun acc s =>
      let outputRaw := s.perUnitAC * solarSize
      match findMatchingLoad loadData s with
      | some matchingLoad =>
          let capacity := matchingLoad.netLoadMW - thermalLimit
          let outputFI := min outputRaw capacity
          (acc.1 + outputFI, acc.2 + (outputRaw - outputFI))
      | none => acc)
    ((0 : ℚ), (0 : ℚ))

/-- Total annual curtailment of a configuration: the sum of
`curtailmentMWh` over the 12 monthly stats. -/
def totalAnnualCurtailment (getMonth : Int → Nat) (loadData : List LoadPoint)
    (solarData : List SolarPoint) (solarSize thermalLimit : ℚ) : ℚ :=
  ((calculateMonthlyStats getMonth loadData solarData solarSize thermalLimit).map
    (·.curtailmentMWh)).sum

/-- The (production, curtailment) contribution of one solar sample,
independent of month bucketing: the common align-and-clip step shared by
`calculateMonthlyStats` and the single-pass annual aggregation. -/
def alignedTerm (loadData : List LoadPoint) (solarSize thermalLimit : ℚ)
    (s : SolarPoint) : ℚ × ℚ :=
  match findMatchingLoad loadData s with
  | some matchingLoad =>
      (min (s.perUnitAC * solarSize) (matchingLoad.netLoadMW - thermalLimit),
       s.perUnitAC * solarSize
         - min (s.perUnitAC * solarSize) (matchingLoad.netLoadMW - thermalLimit))
  | none => (0, 0)

/-! ### Helper lemmas -/

lemma foldl_add_eq_sum {α : Type*} (f : α → ℚ) :
    ∀ (l : List α) (a : ℚ), l.foldl (fun acc x => acc + f x) a = a + (l.map f).sum
  | [], a => by simp
  | x :: l, a => by
    rw [List.foldl_cons, foldl_add_eq_sum f l, List.map_cons, List.sum_cons]
    ring

lemma foldl_pair_add {α : Type*} (f : α → ℚ × ℚ) :
    ∀ (l : List α) (a : ℚ × ℚ),
      l.foldl (fun acc x => (acc.1 + (f x).1, acc.2 + (f x).2)) a
        = (a.1 + (l.map fun x => (f x).1).sum, a.2 + (l.map fun x => (f x).2).sum)
  | [], a => by simp
  | x :: l, a => by
    rw [List.foldl_cons, foldl_pair_add f l]
    simp only [List.map_cons, List.sum_cons, Prod.mk.injEq]
    constructor <;> ring

lemma calculateMonthlyStats_eq (g : Int → Nat) (ld : List LoadPoint)
    (sd : List SolarPoint) (sz t : ℚ) :
    calculateMonthlyStats g ld sd sz t = (List.range 12).map (fun month =>
      { month := month
        productionMWh := (sd.map fun s => (monthContrib g ld sz t month s).1).sum
        curtailmentMWh := (sd.map fun s => (monthContrib g ld sz t month s).2).sum }) := by
  unfold calculateMonthlyStats
  simp only [foldl_pair_add, zero_add]

lemma mem_calculateMonthlyStats {g : Int → Nat} {ld : List LoadPoint}
    {sd : List SolarPoint} {sz t : ℚ} {m : MonthlyData}
    (hm : m ∈ calculateMonthlyStats g ld sd sz t) :
    m.month < 12 ∧
    m.productionMWh = (sd.map fun s => (monthContrib g ld sz t m.month s).1).sum ∧
    m.curtailmentMWh = (sd.map fun s => (monthContrib g ld sz t m.month s).2).sum := by
  rw [calculateMonthlyStats_eq] at hm
  obtain ⟨month, hmonth, rfl⟩ := List.mem_map.mp hm
  exact ⟨List.mem_range.mp hmonth, rfl, rfl⟩

lemma monthContrib_eq_ite (g : Int → Nat) (ld : List LoadPoint) (sz t : ℚ)
    (month : Nat) (s : SolarPoint) :
    monthContrib g ld sz t month s
      = if g s.time = month then alignedTerm ld sz t s else (0, 0) := by
  simp only [monthContrib, alignedTerm]

lemma alignedTerm_snd_nonneg (ld : List LoadPoint) (sz t : ℚ) (s : SolarPoint) :
    0 ≤ (alignedTerm ld sz t s).2 := by
  unfold alignedTerm
  cases hf : findMatchingLoad ld s with
  | some l =>
      have := min_le_left (s.perUnitAC * sz) (l.netLoadMW - t)
      simp only []
      linarith
  | none => simp

lemma monthContrib_snd_nonneg (g : Int → Nat) (ld : List LoadPoint) (sz t : ℚ)
    (month : Nat) (s : SolarPoint) : 0 ≤ (monthContrib g ld sz t month s).2 := by
  rw [monthContrib_eq_ite]
  split
  · exact alignedTerm_snd_nonneg ld sz t s
  · simp

lemma alignedTerm_size_zero (ld : List LoadPoint) (t : ℚ) (s : SolarPoint)
    (h : ∀ l ∈ ld, t ≤ l.netLoadMW) : alignedTerm ld 0 t s = (0, 0) := by
  unfold alignedTerm
  cases hf : findMatchingLoad ld s with
  | some l =>
      have hl : l ∈ ld := List.mem_of_find?_eq_some hf
      have hcap : (0 : ℚ) ≤ l.netLoadMW - t := by linarith [h l hl]
      simp [min_eq_left hcap]
  | none => rfl

lemma alignedTerm_snd_mono (ld : List LoadPoint) (sz : ℚ) {t t' : ℚ}
    (h : t' ≤ t) (s : SolarPoint) :
    (alignedTerm ld sz t' s).2 ≤ (alignedTerm ld sz t s).2 := by
  unfold alignedTerm
  cases hf : findMatchingLoad ld s with
  | some l =>
      have hmin : min (s.perUnitAC * sz) (l.netLoadMW - t)
          ≤ min (s.perUnitAC * sz) (l.netLoadMW - t') :=
        min_le_min le_rfl (by linarith)
      simp only []
      linarith
  | none => simp

lemma sum_map_add {β : Type*} (g h : β → ℚ) :
    ∀ l : List β, (l.map fun x => g x + h x).sum = (l.map g).sum + (l.map h).sum
  | [] => by simp
  | x :: l => by
    simp only [List.map_cons, List.sum_cons, sum_map_add g h l]
    ring

lemma sum_map_swap {α β : Type*} (f : α → β → ℚ) :
    ∀ (l₁ : List α) (l₂ : List β),
      (l₁.map fun a => (l₂.map (f a)).sum).sum
        = (l₂.map fun b => (l₁.map fun a => f a b).sum).sum
  | [], l₂ => by
    simp only [List.map_nil, List.sum_nil]
    exact (List.sum_eq_zero (by simp)).symm
  | a :: l₁, l₂ => by
    simp only [List.map_cons, List.sum_cons, sum_map_swap f l₁ l₂]
    rw [← sum_map_add]

lemma sum_map_ite_range (n k : Nat) (q : ℚ) (hk : k < n) :
    ((List.range n).map fun m => if k = m then q else 0).sum = q := by
  induction n with
  | zero => omega
  | succ n ih =>
    rw [List.range_succ, List.map_append, List.sum_append]
    rcases Nat.lt_succ_iff_lt_or_eq.mp hk with h | h
    · rw [ih h]
      simp [Nat.ne_of_lt h]
    · subst h
      rw [List.sum_eq_zero (by simp +contextual [List.mem_range, Nat.ne_of_gt])]
      simp

lemma annualFold_eq (ld : List LoadPoint) (sz t : ℚ) :
    ∀ (sd : List SolarPoint) (acc : ℚ × ℚ),
      sd.foldl
        (fun acc s =>
          let outputRaw := s.perUnitAC * sz
          match findMatchingLoad ld s with
          | some matchingLoad =>
              let capacity := matchingLoad.netLoadMW - t
              let outputFI := min outputRaw capacity
              (acc.1 + outputFI, acc.2 + (outputRaw - outputFI))
          | none => acc)
        acc
      = (acc.1 + (sd.map fun s => (alignedTerm ld sz t s).1).sum,
         acc.2 + (sd.map fun s => (alignedTerm ld sz t s).2).sum)
  | [], acc => by simp
  | s :: sd, acc => by
    rw [List.foldl_cons, annualFold_eq ld sz t sd]
    simp only [List.map_cons, List.sum_cons, alignedTerm]
    cases hf : findMatchingLoad ld s <;>
      simp only [hf, Prod.mk.injEq] <;> constructor <;> ring

lemma annualSinglePass_eq (ld : List LoadPoint) (sd : List SolarPoint) (sz t : ℚ) :
    annualSinglePass ld sd sz t
      = ((sd.map fun s => (alignedTerm ld sz t s).1).sum,
         (sd.map fun s => (alignedTerm ld sz t s).2).sum) := by
  unfold annualSinglePass
  rw [annualFold_eq]
  simp

lemma totalAnnualCurtailment_eq (g : Int → Nat) (ld : List LoadPoint)
    (sd : List SolarPoint) (sz t : ℚ) :
    totalAnnualCurtailment g ld sd sz t
      = ((List.range 12).map fun month =>
          (sd.map fun s => (monthContrib g ld sz t month s).2).sum).sum := by
  unfold totalAnnualCurtailment
  rw [calculateMonthlyStats_eq, List.map_map]
  rfl

lemma monthlyProductionSum_eq (g : Int → Nat) (ld : List LoadPoint)
    (sd : List SolarPoint) (sz t : ℚ) :
    ((calculateMonthlyStats g ld sd sz t).map (·.productionMWh)).sum
      = ((List.range 12).map fun month =>
          (sd.map fun s => (monthContrib g ld sz t month s).1).sum).sum := by
  rw [calculateMonthlyStats_eq, List.map_map]
  rfl

lemma calculateAnnualCurtailmentPct_eq (md : List MonthlyData) :
    calculateAnnualCurtailmentPct md
      = if (md.map (·.curtailmentMWh)).sum > 0 then
          100 * (md.map (·.curtailmentMWh)).sum
            / ((md.map (·.productionMWh)).sum + (md.map (·.curtailmentMWh)).sum)
        else 0 := by
  unfold calculateAnnualCurtailmentPct
  simp only [foldl_add_eq_sum, zero_add]

lemma alignedTerm_fst_nonneg (ld : List LoadPoint) (sz t : ℚ) (s : SolarPoint)
    (hsz : 0 ≤ sz) (hs : 0 ≤ s.perUnitAC) (hload : ∀ l ∈ ld, t ≤ l.netLoadMW) :
    0 ≤ (alignedTerm ld sz t s).1 := by
  unfold alignedTerm
  cases hf : findMatchingLoad ld s with
  | some l =>
      have hl : l ∈ ld := List.mem_of_find?_eq_some hf
      have hcap : (0 : ℚ) ≤ l.netLoadMW - t := by linarith [hload l hl]
      exact le_min (mul_nonneg hs hsz) hcap
  | none => simp

lemma monthContrib_nil_load (g : Int → Nat) (sz t : ℚ) (month : Nat)
    (s : SolarPoint) : monthContrib g [] sz t month s = (0, 0) := by
  rw [monthContrib_eq_ite]
  split <;> simp [alignedTerm, findMatchingLoad]

lemma find?_first {α : Type*} {p : α → Bool} :
    ∀ {l : List α} {a : α}, l.find? p = some a →
      p a = true ∧ ∃ pre post, l = pre ++ a :: post ∧ ∀ x ∈ pre, p x = false
  | [], a => by simp
  | x :: l, a => by
    intro h
    by_cases hp : p x
    · rw [List.find?_cons_of_pos l hp] at h
      obtain rfl : x = a := by simpa using h
      exact ⟨hp, [], l, rfl, by simp⟩
    · rw [List.find?_cons_of_neg l hp] at h
      obtain ⟨hpa, pre, post, rfl, hpre⟩ := find?_first h
      refine ⟨hpa, x :: pre, post, rfl, ?_⟩
      intro q hq
      rcases List.mem_cons.mp hq with rfl | hq
      · exact Bool.of_not_eq_true hp
      · exact hpre q hq

lemma jsTruncRat_intCast (n : Int) : jsTruncRat (n : ℚ) = n := by
  simp [jsTruncRat]

/-! ### Claims -/

/-- C1 counterexample: with `plantSizeMW = 0` and thermal limit `-10`, a
single solar sample matched against a load point at net load `-20` (hosting
capacity `-10 < 0`) gives `productionMWh = -10` and `curtailmentMWh = 10`
in its month, so not every entry is zero. -/
theorem c1_counterexample :
    ¬ (∀ m ∈ calculateMonthlyStats (fun _ => 0) [⟨0, -20⟩] [⟨0, 1⟩] 0 (-10),
        m.productionMWh = 0 ∧ m.curtailmentMWh = 0) := by
  intro h
  have heval : calculateMonthlyStats (fun _ => 0) [⟨0, -20⟩] [⟨0, 1⟩] 0 (-10)
      = [⟨0, -10, 10⟩, ⟨1, 0, 0⟩, ⟨2, 0, 0⟩, ⟨3, 0, 0⟩, ⟨4, 0, 0⟩, ⟨5, 0, 0⟩,
         ⟨6, 0, 0⟩, ⟨7, 0, 0⟩, ⟨8, 0, 0⟩, ⟨9, 0, 0⟩, ⟨10, 0, 0⟩, ⟨11, 0, 0⟩] := by
    norm_num [calculateMonthlyStats_eq, monthContrib_eq_ite, alignedTerm, findMatchingLoad,
      List.range_succ]
  have hmem : (⟨0, -10, 10⟩ : MonthlyData)
      ∈ calculateMonthlyStats (fun _ => 0) [⟨0, -20⟩] [⟨0, 1⟩] 0 (-10) := by
    rw [heval]
    exact List.mem_cons_self _ _
  have := (h _ hmem).1
  norm_num at this

/-- C1 (amended): for `plantSizeMW = 0`, provided every load point's
hosting capacity is nonnegative (`thermalLimitMW ≤ netLoadMW`), the
aggregation returns 12 entries, every one with `productionMWh = 0` and
`curtailmentMWh = 0`. -/
theorem c1_plant_size_zero (g : Int → Nat) (ld : List LoadPoint)
    (sd : List SolarPoint) (t : ℚ) (h : ∀ l ∈ ld, t ≤ l.netLoadMW) :
    (calculateMonthlyStats g ld sd 0 t).length = 12 ∧
    ∀ m ∈ calculateMonthlyStats g ld sd 0 t,
      m.productionMWh = 0 ∧ m.curtailmentMWh = 0 := by
  constructor
  · rw [calculateMonthlyStats_eq]
    simp
  · intro m hm
    obtain ⟨-, hp, hc⟩ := mem_calculateMonthlyStats hm
    have hz : ∀ s : SolarPoint, monthContrib g ld 0 t m.month s = (0, 0) := by
      intro s
      rw [monthContrib_eq_ite, alignedTerm_size_zero ld t s h]
      split <;> rfl
    constructor
    · rw [hp]
      refine List.sum_eq_zero ?_
      intro x hx
      obtain ⟨s, -, rfl⟩ := List.mem_map.mp hx
      rw [hz s]
    · rw [hc]
      refine List.sum_eq_zero ?_
      intro x hx
      obtain ⟨s, -, rfl⟩ := List.mem_map.mp hx
      rw [hz s]

/-- C1 witness: the amended statement evaluated at a concrete series with
nonnegative hosting capacity. -/
theorem c1_plant_size_zero_witness :
    (∀ l ∈ ([⟨0, 5⟩] : List LoadPoint), (0 : ℚ) ≤ l.netLoadMW) ∧
    ((calculateMonthlyStats (fun _ => 0) [⟨0, 5⟩] [⟨0, 1⟩] 0 0).length = 12 ∧
     ∀ m ∈ calculateMonthlyStats (fun _ => 0) [⟨0, 5⟩] [⟨0, 1⟩] 0 0,
       m.productionMWh = 0 ∧ m.curtailmentMWh = 0) :=
  ⟨by decide, c1_plant_size_zero (fun _ => 0) [⟨0, 5⟩] [⟨0, 1⟩] 0 (by decide)⟩

/-- C2 counterexample: the aggregation itself can produce stats whose
annual curtailment percentage is `600`, outside `[0, 100]` — one sample,
net load `-5`, thermal limit `0`, plant size `1` gives production `-5` and
curtailment `6`, hence `100·6/(−5+6) = 600`. -/
theorem c2_counterexample :
    ¬ calculateAnnualCurtailmentPct
        (calculateMonthlyStats (fun _ => 0) [⟨0, -5⟩] [⟨0, 1⟩] 1 0) ≤ 100 := by
  have heval : calculateMonthlyStats (fun _ => 0) [⟨0, -5⟩] [⟨0, 1⟩] 1 0
      = [⟨0, -5, 6⟩, ⟨1, 0, 0⟩, ⟨2, 0, 0⟩, ⟨3, 0, 0⟩, ⟨4, 0, 0⟩, ⟨5, 0, 0⟩,
         ⟨6, 0, 0⟩, ⟨7, 0, 0⟩, ⟨8, 0, 0⟩, ⟨9, 0, 0⟩, ⟨10, 0, 0⟩, ⟨11, 0, 0⟩] := by
    norm_num [calculateMonthlyStats_eq, monthContrib_eq_ite, alignedTerm, findMatchingLoad,
      List.range_succ]
  rw [heval, calculateAnnualCurtailmentPct_eq]
  norm_num

/-- C2 (amended): when every entry has nonnegative production and
curtailment, `annualCurtailmentPct` lies in `[0, 100]`; and for any input
whose curtailment entries sum to `0` it is exactly `0`. -/
theorem c2_pct_bounds (md : List MonthlyData) :
    ((∀ m ∈ md, 0 ≤ m.productionMWh ∧ 0 ≤ m.curtailmentMWh) →
      0 ≤ calculateAnnualCurtailmentPct md ∧ calculateAnnualCurtailmentPct md ≤ 100) ∧
    ((md.map (·.curtailmentMWh)).sum = 0 → calculateAnnualCurtailmentPct md = 0) := by
  constructor
  · intro h
    have hP : 0 ≤ (md.map (·.productionMWh)).sum := by
      refine List.sum_nonneg ?_
      intro x hx
      obtain ⟨m, hm, rfl⟩ := List.mem_map.mp hx
      exact (h m hm).1
    rw [calculateAnnualCurtailmentPct_eq]
    by_cases hgt : (md.map (·.curtailmentMWh)).sum > 0
    · rw [if_pos hgt]
      have hden : 0 < (md.map (·.productionMWh)).sum + (md.map (·.curtailmentMWh)).sum := by
        linarith
      constructor
      · positivity
      · rw [div_le_iff₀ hden]
        linarith
    · rw [if_neg hgt]
      norm_num
  · intro h0
    rw [calculateAnnualCurtailmentPct_eq, h0]
    norm_num

/-- C2 witness: the amended statement evaluated at a concrete
nonnegative stats list. -/
theorem c2_pct_bounds_witness :
    (0 ≤ calculateAnnualCurtailmentPct [⟨0, 1, 0⟩] ∧
      calculateAnnualCurtailmentPct [⟨0, 1, 0⟩] ≤ 100) ∧
    calculateAnnualCurtailmentPct [⟨0, 1, 0⟩] = 0 :=
  ⟨(c2_pct_bounds [⟨0, 1, 0⟩]).1 (by norm_num),
   (c2_pct_bounds [⟨0, 1, 0⟩]).2 (by norm_num)⟩

/-- C3 counterexample: a fully matched, uncurtailed configuration (net
load `100`, plant size `1`) gives `annualCurtailmentPct = 0` while the
denominator `Σproduction + Σcurtailment = 1 ≠ 0`, refuting "equals 0
exactly when that denominator is 0". -/
theorem c3_counterexample :
    calculateAnnualCurtailmentPct
        (calculateMonthlyStats (fun _ => 0) [⟨0, 100⟩] [⟨0, 1⟩] 1 0) = 0 ∧
    ((calculateMonthlyStats (fun _ => 0) [⟨0, 100⟩] [⟨0, 1⟩] 1 0).map
        (·.productionMWh)).sum
      + ((calculateMonthlyStats (fun _ => 0) [⟨0, 100⟩] [⟨0, 1⟩] 1 0).map
        (·.curtailmentMWh)).sum ≠ 0 := by
  have heval : calculateMonthlyStats (fun _ => 0) [⟨0, 100⟩] [⟨0, 1⟩] 1 0
      = [⟨0, 1, 0⟩, ⟨1, 0, 0⟩, ⟨2, 0, 0⟩, ⟨3, 0, 0⟩, ⟨4, 0, 0⟩, ⟨5, 0, 0⟩,
         ⟨6, 0, 0⟩, ⟨7, 0, 0⟩, ⟨8, 0, 0⟩, ⟨9, 0, 0⟩, ⟨10, 0, 0⟩, ⟨11, 0, 0⟩] := by
    norm_num [calculateMonthlyStats_eq, monthContrib_eq_ite, alignedTerm, findMatchingLoad,
      List.range_succ]
  rw [heval, calculateAnnualCurtailmentPct_eq]
  norm_num

/-- C3 (amended): `annualCurtailmentPct` equals the spec formula
`100·Σcurtailment/(Σproduction + Σcurtailment)` whenever the curtailment
sum is positive and the denominator is nonzero, and equals `0` whenever
the curtailment sum is `≤ 0`: the source's guard is on total curtailment
being positive, not on the denominator being zero. -/
theorem c3_pct_formula (md : List MonthlyData) :
    (0 < (md.map (·.curtailmentMWh)).sum →
      (md.map (·.productionMWh)).sum + (md.map (·.curtailmentMWh)).sum ≠ 0 →
      calculateAnnualCurtailmentPct md = specCurtailmentFormula md) ∧
    ((md.map (·.curtailmentMWh)).sum ≤ 0 → calculateAnnualCurtailmentPct md = 0) := by
  constructor
  · intro hgt _
    rw [calculateAnnualCurtailmentPct_eq, if_pos hgt]
    rfl
  · intro hle
    rw [calculateAnnualCurtailmentPct_eq, if_neg (not_lt.mpr hle)]

/-- C3 witness: the amended statement evaluated at concrete stats lists
(`Σcurtailment = 3 > 0` with denominator `4`, and `Σcurtailment = 0`). -/
theorem c3_pct_formula_witness :
    calculateAnnualCurtailmentPct [⟨0, 1, 3⟩] = specCurtailmentFormula [⟨0, 1, 3⟩] ∧
    calculateAnnualCurtailmentPct [⟨0, 1, 0⟩] = 0 :=
  ⟨(c3_pct_formula [⟨0, 1, 3⟩]).1 (by norm_num) (by norm_num),
   (c3_pct_formula [⟨0, 1, 0⟩]).2 (by norm_num)⟩

/-- C4 counterexample: with `plantSizeMW = 0 ≥ 0` and thermal limit `-3`,
a sample matched at net load `-7` (hosting capacity `-4`) yields a
`MonthlyStat` with `productionMWh = -4 < 0`, violating the claimed
data-model bound `productionMWh ≥ 0`. -/
theorem c4_counterexample :
    (0 : ℚ) ≤ 0 ∧
    ¬ (∀ m ∈ calculateMonthlyStats (fun _ => 0) [⟨0, -7⟩] [⟨0, 1⟩] 0 (-3),
        0 ≤ m.productionMWh) := by
  refine ⟨le_refl 0, ?_⟩
  intro h
  have heval : calculateMonthlyStats (fun _ => 0) [⟨0, -7⟩] [⟨0, 1⟩] 0 (-3)
      = [⟨0, -4, 4⟩, ⟨1, 0, 0⟩, ⟨2, 0, 0⟩, ⟨3, 0, 0⟩, ⟨4, 0, 0⟩, ⟨5, 0, 0⟩,
         ⟨6, 0, 0⟩, ⟨7, 0, 0⟩, ⟨8, 0, 0⟩, ⟨9, 0, 0⟩, ⟨10, 0, 0⟩, ⟨11, 0, 0⟩] := by
    norm_num [calculateMonthlyStats_eq, monthContrib_eq_ite, alignedTerm, findMatchingLoad,
      List.range_succ]
  have hmem : (⟨0, -4, 4⟩ : MonthlyData)
      ∈ calculateMonthlyStats (fun _ => 0) [⟨0, -7⟩] [⟨0, 1⟩] 0 (-3) := by
    rw [heval]
    exact List.mem_cons_self _ _
  have := h _ hmem
  norm_num at this

/-- C4 (amended): for `plantSizeMW ≥ 0`, every produced `MonthlyStat` has
`month ∈ [0, 11]` and `curtailmentMWh ≥ 0` unconditionally; and
`productionMWh ≥ 0` holds additionally whenever every solar per-unit value
is nonnegative and every load point's hosting capacity
(`netLoadMW − thermalLimitMW`) is nonnegative. -/
theorem c4_invariants (g : Int → Nat) (ld : List LoadPoint) (sd : List SolarPoint)
    (sz t : ℚ) (hsz : 0 ≤ sz) :
    ∀ m ∈ calculateMonthlyStats g ld sd sz t,
      m.month < 12 ∧ 0 ≤ m.curtailmentMWh ∧
      ((∀ s ∈ sd, 0 ≤ s.perUnitAC) → (∀ l ∈ ld, t ≤ l.netLoadMW) →
        0 ≤ m.productionMWh) := by
  intro m hm
  obtain ⟨hmonth, hp, hc⟩ := mem_calculateMonthlyStats hm
  refine ⟨hmonth, ?_, ?_⟩
  · rw [hc]
    refine List.sum_nonneg ?_
    intro x hx
    obtain ⟨s, -, rfl⟩ := List.mem_map.mp hx
    exact monthContrib_snd_nonneg g ld sz t m.month s
  · intro hsolar hload
    rw [hp]
    refine List.sum_nonneg ?_
    intro x hx
    obtain ⟨s, hs, rfl⟩ := List.mem_map.mp hx
    rw [monthContrib_eq_ite]
    by_cases hmm : g s.time = m.month
    · rw [if_pos hmm]
      exact alignedTerm_fst_nonneg ld sz t s hsz (hsolar s hs) hload
    · rw [if_neg hmm]

/-- C4 witness: the amended statement evaluated at a concrete
configuration. -/
theorem c4_invariants_witness :
    (0 : ℚ) ≤ 2 ∧
    ∀ m ∈ calculateMonthlyStats (fun _ => 0) [⟨0, 5⟩] [⟨0, 1⟩] 2 0,
      m.month < 12 ∧ 0 ≤ m.curtailmentMWh ∧
      ((∀ s ∈ ([⟨0, 1⟩] : List SolarPoint), 0 ≤ s.perUnitAC) →
       (∀ l ∈ ([⟨0, 5⟩] : List LoadPoint), (0 : ℚ) ≤ l.netLoadMW) →
        0 ≤ m.productionMWh) :=
  ⟨by norm_num, c4_invariants (fun _ => 0) [⟨0, 5⟩] [⟨0, 1⟩] 2 0 (by norm_num)⟩

/-- C5 counterexample: on empty input the zero-crossing interpolator does
not return an empty output sequence — the unconditional final push emits
one point `(undefined, null)`. -/
theorem c5_counterexample : (buildReverseFlowSeries [] []).1 ≠ [] := by
  decide

/-- C5 (amended): on empty input the interpolator returns a single
`(undefined, null)` point (never an exception), and the monthly
aggregation over an empty solar series or an empty load series returns the
12 all-zero entries. -/
theorem c5_empty_series (g : Int → Nat) (ld : List LoadPoint)
    (sd : List SolarPoint) (sz t : ℚ) :
    buildReverseFlowSeries [] [] = ([none], [none]) ∧
    calculateMonthlyStats g ld [] sz t
      = (List.range 12).map (fun month => ⟨month, 0, 0⟩) ∧
    calculateMonthlyStats g [] sd sz t
      = (List.range 12).map (fun month => ⟨month, 0, 0⟩) := by
  refine ⟨rfl, ?_, ?_⟩
  · rw [calculateMonthlyStats_eq]
    simp
  · rw [calculateMonthlyStats_eq]
    refine List.map_congr_left ?_
    intro month _
    simp [monthContrib_nil_load]

/-- C6: the aligner returns the first load point in sequence order whose
timestamp is strictly within one hour (3,600,000 ms) of the solar
timestamp — even when a later point is closer — and `none` exactly when no
load point qualifies; concretely, a solar sample 3,600,001 ms from the only
load point yields no match and all-zero monthly and annual aggregates,
while one 3,599,999 ms away yields a match. -/
theorem c6_first_match_alignment :
    (∀ (loadData : List LoadPoint) (s : SolarPoint) (lp : LoadPoint),
        findMatchingLoad loadData s = some lp →
        |lp.time - s.time| < 3600000 ∧
        ∃ pre post, loadData = pre ++ lp :: post ∧
          ∀ q ∈ pre, ¬ |q.time - s.time| < 3600000) ∧
    (∀ (loadData : List LoadPoint) (s : SolarPoint),
        findMatchingLoad loadData s = none ↔
          ∀ lp ∈ loadData, ¬ |lp.time - s.time| < 3600000) ∧
    findMatchingLoad [⟨-3599999, 1⟩, ⟨0, 2⟩] ⟨0, 1⟩ = some ⟨-3599999, 1⟩ ∧
    findMatchingLoad [⟨0, -100⟩] ⟨3600001, 1⟩ = none ∧
    calculateMonthlyStats (fun _ => 0) [⟨0, -100⟩] [⟨3600001, 1⟩] 1 0
      = (List.range 12).map (fun month => ⟨month, 0, 0⟩) ∧
    calculateAnnualCurtailmentPct
      (calculateMonthlyStats (fun _ => 0) [⟨0, -100⟩] [⟨3600001, 1⟩] 1 0) = 0 ∧
    findMatchingLoad [⟨0, -100⟩] ⟨3599999, 1⟩ = some ⟨0, -100⟩ := by
  have heval : calculateMonthlyStats (fun _ => 0) [⟨0, -100⟩] [⟨3600001, 1⟩] 1 0
      = (List.range 12).map (fun month => ⟨month, 0, 0⟩) := by
    norm_num [calculateMonthlyStats_eq, monthContrib_eq_ite, alignedTerm, findMatchingLoad,
      List.range_succ]
  refine ⟨?_, ?_, by decide, by decide, heval, ?_, by decide⟩
  · intro ld s lp h
    simp only [findMatchingLoad] at h
    obtain ⟨hp, pre, post, rfl, hpre⟩ := find?_first h
    refine ⟨by simpa using hp, pre, post, rfl, ?_⟩
    intro q hq
    simpa using hpre q hq
  · intro ld s
    simp [findMatchingLoad, List.find?_eq_none]
  · rw [heval, calculateAnnualCurtailmentPct_eq]
    norm_num [List.range_succ]

/-- C6 witness: the first-match characterization applied to the concrete
load series at distance 3,599,999 ms. -/
theorem c6_first_match_alignment_witness :
    |(⟨0, -100⟩ : LoadPoint).time - (⟨3599999, 1⟩ : SolarPoint).time| < 3600000 ∧
    ∃ pre post, ([⟨0, -100⟩] : List LoadPoint) = pre ++ (⟨0, -100⟩ : LoadPoint) :: post ∧
      ∀ q ∈ pre, ¬ |q.time - (⟨3599999, 1⟩ : SolarPoint).time| < 3600000 :=
  c6_first_match_alignment.1 [⟨0, -100⟩] ⟨3599999, 1⟩ ⟨0, -100⟩ (by decide)

/-- C7: for fixed month function, load series, solar series and plant
size, moving the thermal limit in the export-allowing direction (more
negative) never increases the total annual curtailment. -/
theorem c7_thermal_limit_monotone (g : Int → Nat) (ld : List LoadPoint)
    (sd : List SolarPoint) (sz : ℚ) {t t' : ℚ} (h : t' ≤ t) :
    totalAnnualCurtailment g ld sd sz t' ≤ totalAnnualCurtailment g ld sd sz t := by
  rw [totalAnnualCurtailment_eq, totalAnnualCurtailment_eq]
  refine List.sum_le_sum ?_
  intro month _
  refine List.sum_le_sum ?_
  intro s _
  rw [monthContrib_eq_ite, monthContrib_eq_ite]
  by_cases hc : g s.time = month
  · rw [if_pos hc, if_pos hc]
    exact alignedTerm_snd_mono ld sz h s
  · rw [if_neg hc, if_neg hc]

/-- C7 witness: monotonicity evaluated at a concrete configuration with
thermal limits `-15 ≤ -10`. -/
theorem c7_thermal_limit_monotone_witness :
    (-15 : ℚ) ≤ -10 ∧
    totalAnnualCurtailment (fun _ => 0) [⟨0, -20⟩] [⟨0, 1⟩] 3 (-15)
      ≤ totalAnnualCurtailment (fun _ => 0) [⟨0, -20⟩] [⟨0, 1⟩] 3 (-10) :=
  ⟨by norm_num,
   c7_thermal_limit_monotone (fun _ => 0) [⟨0, -20⟩] [⟨0, 1⟩] 3 (by norm_num)⟩

/-- C8: provided the month function always lands in `[0, 11]` (as
`Date.getMonth` does), the sum of `productionMWh` over the 12 monthly
stats equals the production total of the single-pass annual aggregation:
the month bucketing neither double-counts nor omits any sample. -/
theorem c8_monthly_sum_eq_single_pass (g : Int → Nat) (ld : List LoadPoint)
    (sd : List SolarPoint) (sz t : ℚ) (h : ∀ ts : Int, g ts < 12) :
    ((calculateMonthlyStats g ld sd sz t).map (·.productionMWh)).sum
      = (annualSinglePass ld sd sz t).1 := by
  rw [monthlyProductionSum_eq, annualSinglePass_eq]
  rw [sum_map_swap (fun month s => (monthContrib g ld sz t month s).1) (List.range 12) sd]
  have hinner : ∀ s : SolarPoint,
      ((List.range 12).map fun month => (monthContrib g ld sz t month s).1).sum
        = (alignedTerm ld sz t s).1 := by
    intro s
    have hterm : ∀ month : Nat, (monthContrib g ld sz t month s).1
        = if g s.time = month then (alignedTerm ld sz t s).1 else 0 := by
      intro month
      rw [monthContrib_eq_ite, apply_ite Prod.fst]
    simp only [hterm]
    exact sum_map_ite_range 12 (g s.time) ((alignedTerm ld sz t s).1) (h s.time)
  simp only [hinner]

/-- C8 witness: the bucketing identity evaluated at a concrete
configuration with the constant month function. -/
theorem c8_monthly_sum_eq_single_pass_witness :
    (∀ _ts : Int, (0 : Nat) < 12) ∧
    ((calculateMonthlyStats (fun _ => 0) [⟨0, 5⟩] [⟨0, 1⟩] 2 0).map
        (·.productionMWh)).sum
      = (annualSinglePass [⟨0, 5⟩] [⟨0, 1⟩] 2 0).1 :=
  ⟨fun _ => by norm_num,
   c8_monthly_sum_eq_single_pass (fun _ => 0) [⟨0, 5⟩] [⟨0, 1⟩] 2 0
     (fun _ => by norm_num)⟩

/-- C9: on the two-point input `(t0, 1.0)`, `(t0 + 3600000, -1.0)` the
interpolator emits the original first point as a gap, a crossing point at
exactly `t0 + 1800000` with value `0`, and the final point with its value
`-1 ≤ 0`. -/
theorem c9_zero_crossing (t0 : Int) :
    buildReverseFlowSeries [t0, t0 + 3600000] [1, -1]
      = ([some t0, some (t0 + 1800000), some (t0 + 3600000)],
         [none, some 0, some (-1)]) := by
  simp only [buildReverseFlowSeries, reverseFlowStep, reverseFlowY, List.length_cons,
    List.length_nil, List.get?]
  norm_num [List.range_succ]
  have hcast : ((t0 : ℚ) + 1800000) = ((t0 + 1800000 : Int) : ℚ) := by
    push_cast
    ring
  rw [hcast, jsTruncRat_intCast]

/-- C10: the one-hour tolerance is strict — any returned match differs by
strictly less than 3,600,000 ms, so a load point at exactly 3,600,000 ms is
never the match; a lone load point at that distance yields no match and
all-zero aggregation, while adding another load point strictly within one
hour yields that other point as the match. -/
theorem c10_strict_tolerance :
    (∀ (loadData : List LoadPoint) (s : SolarPoint) (lp : LoadPoint),
        findMatchingLoad loadData s = some lp → |lp.time - s.time| ≠ 3600000) ∧
    findMatchingLoad [⟨0, -100⟩] ⟨3600000, 1⟩ = none ∧
    calculateMonthlyStats (fun _ => 0) [⟨0, -100⟩] [⟨3600000, 1⟩] 1 0
      = (List.range 12).map (fun month => ⟨month, 0, 0⟩) ∧
    findMatchingLoad [⟨0, -100⟩, ⟨3600000, 7⟩] ⟨3600000, 1⟩ = some ⟨3600000, 7⟩ := by
  refine ⟨?_, by decide, ?_, by decide⟩
  · intro ld s lp h
    simp only [findMatchingLoad] at h
    have hlt : |lp.time - s.time| < 3600000 := by simpa using List.find?_some h
    exact ne_of_lt hlt
  · norm_num [calculateMonthlyStats_eq, monthContrib_eq_ite, alignedTerm, findMatchingLoad,
      List.range_succ]

/-- C10 witness: the strictness property applied at a concrete match. -/
theorem c10_strict_tolerance_witness :
    |(⟨3600000, 7⟩ : LoadPoint).time - (⟨3600000, 1⟩ : SolarPoint).time| ≠ 3600000 :=
  c10_strict_tolerance.1 [⟨0, -100⟩, ⟨3600000, 7⟩] ⟨3600000, 1⟩ ⟨3600000, 7⟩ (by decide)
